import Mathlib

/-!
Verification of the crystal slice propagation / saturable gain engine of
rslaser (src/rslaser/optics/crystal.py and src/rslaser/optics/element.py)
against its natural-language specification.

The development is a shallow embedding: the per-cell numerical formulas of
the gain calculator are embedded as real functions; the control flow of the
propagation dispatch is embedded as an operation-trace semantics over the
pulse container; the grid bookkeeping of the LCT front end is embedded over
axis descriptors; the constructor parameter policy is embedded as an
`Except`-valued function.  External collaborators (scipy splines, the SRW
propagator, the rsmath LCT kernel, the wavefront container) are modelled
only through the interface the core uses, as the specification prescribes.
-/

namespace Rslaser

noncomputable section

/-! ## Per-cell model of `CrystalSlice.calc_gain` (crystal.py lines 719-850)

`calc_gain` computes, for every mesh cell, dimensionless parameters
`epsilon = degen_factor * cross_sec * n_incident_photons` (photon areal
density) and `beta = cross_sec * pop_inversion * length`, then a per-cell
`energy_gain` by a two-branch rule keyed on `epsilon < 1e-5`, clamps it
below at 1.0, multiplies the photon-count mesh by the gain, decrements the
inversion mesh by the extracted energy and scales the field by the square
root of the gain.  Machine floats are idealised as real numbers. -/

/-- `degen_factor = 1.67` (crystal.py line 729). -/
def degenFactor : ℝ := 1.67

/-- `epsilon = degen_factor * cross_sec * n_incident_photons` for one cell,
with `Nd` the photon areal density `n_photons_2d.mesh / (dx*dy)`
(crystal.py lines 733-737). -/
def epsilonOf (σ Nd : ℝ) : ℝ := degenFactor * σ * Nd

/-- `beta = cross_sec * pop_inversion * length` for one cell
(crystal.py line 738). -/
def betaOf (σ P L : ℝ) : ℝ := σ * P * L

/-- Per-cell `energy_gain` of `CrystalSlice.calc_gain` (crystal.py lines
741-777): the `np.where` masks `condition_1` (`epsilon < 1e-5`) and
`condition_2` (`epsilon >= 1e-5`) partition the mesh, so per cell the
assignment is an if-then-else. -/
def energyGainCell (ε β : ℝ) : ℝ :=
  if ε < 1e-5 then
    Real.exp β - 0.5 * ε * Real.exp β * (Real.exp β - 1)
      + 1 / 6 * ε ^ 2 * Real.exp β
          * (1 - 3 * Real.exp β + 2 * Real.exp (2 * β))
      + 1 / 24 * ε ^ 3 * Real.exp β
          * (1 - 7 * Real.exp β + 12 * Real.exp (2 * β) - 6 * Real.exp (3 * β))
  else
    (1 / ε) * Real.log (1 + Real.exp β * (Real.exp ε - 1))

/-- Per-cell gain with `epsilon`/`beta` built from the cell inputs as in
the source (crystal.py lines 735-738). -/
def cellEnergyGain (σ Nd P L : ℝ) : ℝ :=
  energyGainCell (epsilonOf σ Nd) (betaOf σ P L)

/-- The clamp `energy_gain[energy_gain < 1.0] = 1.0` (crystal.py line 780),
per cell. -/
def clampGainCell (ε β : ℝ) : ℝ :=
  if energyGainCell ε β < 1 then 1 else energyGainCell ε β

/-- Factor applied to the photon-count mesh:
`thisSlice.n_photons_2d.mesh *= energy_gain` (crystal.py line 803). -/
def photonFactorCell (ε β : ℝ) : ℝ := clampGainCell ε β

/-- Factor applied to every field component:
`re0_2d_ex * np.sqrt(energy_gain)` and likewise for the other three
components (crystal.py lines 830-833). -/
def fieldFactorCell (ε β : ℝ) : ℝ := Real.sqrt (clampGainCell ε β)

/-- Per-cell change accumulated into the inversion mesh:
`-(degen_factor * n_incident_photons * (energy_gain - 1.0) / self.length)`
(crystal.py lines 783-785). -/
def changePopCell (Nd ε β L : ℝ) : ℝ :=
  -(degenFactor * Nd * (clampGainCell ε β - 1) / L)

/-- In-place inversion-mesh update on the equal-grid path of
`_interpolate_a_to_b` (crystal.py lines 669, 800): when the wavefront grid
coincides with the inversion-mesh grid (`np.array_equal` on both axes) the
change mesh is accumulated unresampled:
`self.pop_inversion_mesh += change_pop_inversion.mesh`. -/
def popUpdateEqualGrid {ι : Type} (pop Nd ε β : ι → ℝ) (L : ℝ) : ι → ℝ :=
  fun i => pop i + changePopCell (Nd i) (ε i) (β i) L

/-! ## Spec-side saturated-gain formula and its Taylor expansion

The spec (section 4.4) gives the closed form
`gain = (1/epsilon) * ln(1 + e^beta * (e^epsilon - 1))` and says the small
signal branch is "a 4-term Taylor expansion in epsilon" of that formula.
Since the logarithm vanishes at `epsilon = 0`, the Taylor coefficient of
`epsilon^k` of the quotient is the `(k+1)`-st derivative of the logarithm
at `0` divided by `(k+1)!`. -/

/-- The logarithm part of the exact saturated-gain formula,
`t ↦ ln(1 + e^beta * (e^t - 1))`, as the spec writes it. -/
def satGainLog (β : ℝ) : ℝ → ℝ :=
  fun t => Real.log (1 + Real.exp β * (Real.exp t - 1))

/-- Coefficient of `epsilon^k` in the Taylor expansion at `0` of the exact
saturated-gain formula `(1/epsilon) * ln(1 + e^beta * (e^epsilon - 1))`. -/
def taylorGainCoeff (β : ℝ) (k : ℕ) : ℝ :=
  iteratedDeriv (k + 1) (satGainLog β) 0 / (Nat.factorial (k + 1) : ℝ)

/-- The 4-term Taylor expansion in `epsilon` of the exact saturated-gain
formula, per the spec. -/
def taylorGain4 (β ε : ℝ) : ℝ :=
  ∑ k in Finset.range 4, taylorGainCoeff β k * ε ^ k

/-! Auxiliary functions for computing the derivatives of `satGainLog`.
Throughout, `a` stands for `e^beta`. -/

/-- Denominator `1 + a * (e^t - 1)` inside the saturated-gain logarithm. -/
def satDen (a t : ℝ) : ℝ := 1 + a * (Real.exp t - 1)

/-- First derivative of `t ↦ ln(satDen a t)` where `satDen a t > 0`. -/
def satG1 (a t : ℝ) : ℝ := a * Real.exp t / satDen a t

/-- Second derivative of `t ↦ ln(satDen a t)` where `satDen a t > 0`. -/
def satG2 (a t : ℝ) : ℝ := a * (1 - a) * Real.exp t / satDen a t ^ 2

/-- Third derivative of `t ↦ ln(satDen a t)` where `satDen a t > 0`. -/
def satG3 (a t : ℝ) : ℝ :=
  a * (1 - a) * (Real.exp t * (1 - a - a * Real.exp t)) / satDen a t ^ 3

end

/-! ## Operation-trace semantics of the propagation dispatch

The wavefront/pulse container is an external collaborator (spec section 1),
so a pulse is embedded as its structure of time slices and bandwidth
sub-slices, each carrying the ordered list of operations the crystal code
has applied to it.  `calc_gain`, `nl_kick`, `_propagate_lct` and
`srwl.PropagElecField` each stamp one operation; container methods
(`update_photon_positions`, `resize_laser_mesh`, `shift_wavefront`) do not
apply any of the four operations and are trace-transparent. -/

/-- One observable operation applied to a (sub-)slice field. -/
inductive PropOp
  | gain
  | kick
  | lct
  | srw
  | split
  deriving DecidableEq, Repr

/-- A bandwidth sub-slice: its operation history. -/
structure BwSlice where
  ops : List PropOp
  deriving DecidableEq, Repr

/-- A laser-pulse time slice: its own operation history and its bandwidth
sub-slices. -/
structure PulseSlice where
  ops : List PropOp
  bw : List BwSlice
  deriving DecidableEq, Repr

/-- The laser pulse: ordered time slices plus `pulse_direction` (a float in
the source, holding 0.0 or 180.0; embedded as a rational). -/
structure Pulse where
  slices : List PulseSlice
  direction : ℚ
  deriving DecidableEq, Repr

/-- `calc_gain` applied to a time slice (trace level). -/
def gainS (s : PulseSlice) : PulseSlice :=
  { s with ops := s.ops ++ [PropOp.gain] }

/-- `nl_kick` applied to a time slice (trace level). -/
def kickS (s : PulseSlice) : PulseSlice :=
  { s with ops := s.ops ++ [PropOp.kick] }

/-- `_propagate_lct` applied to a time slice wavefront (trace level). -/
def lctS (s : PulseSlice) : PulseSlice :=
  { s with ops := s.ops ++ [PropOp.lct] }

/-- `srwl.PropagElecField` applied to a time slice wavefront (trace
level). -/
def srwS (s : PulseSlice) : PulseSlice :=
  { s with ops := s.ops ++ [PropOp.srw] }

/-- `calc_gain` applied to a bandwidth sub-slice (trace level). -/
def gainB (b : BwSlice) : BwSlice := { b with ops := b.ops ++ [PropOp.gain] }

/-- `nl_kick` applied to a bandwidth sub-slice (trace level). -/
def kickB (b : BwSlice) : BwSlice := { b with ops := b.ops ++ [PropOp.kick] }

/-- `_propagate_lct` applied to a bandwidth sub-slice (trace level). -/
def lctB (b : BwSlice) : BwSlice := { b with ops := b.ops ++ [PropOp.lct] }

/-- `srwl.PropagElecField` applied to a bandwidth sub-slice (trace
level). -/
def srwB (b : BwSlice) : BwSlice := { b with ops := b.ops ++ [PropOp.srw] }

/-- `_split_beam` applied to a time slice (element.py lines 228-233, trace
level). -/
def splitS (s : PulseSlice) : PulseSlice :=
  { s with ops := s.ops ++ [PropOp.split] }

/-- `_split_beam` applied to a bandwidth sub-slice (trace level). -/
def splitB (b : BwSlice) : BwSlice := { b with ops := b.ops ++ [PropOp.split] }

/-- `CrystalSlice._propagate_abcd_lct` (crystal.py lines 506-552): per time
slice, optionally gain, optionally kick, then the LCT transform on that
slice wavefront; then per bandwidth sub-slice the same sequence.  The loop
body touches each (sub-)slice independently, so the loops are maps. -/
def propagateAbcdLctP (cg nk : Bool) (p : Pulse) : Pulse :=
  { p with slices := p.slices.map (fun s0 =>
      let s1 := if cg then gainS s0 else s0
      let s2 := if nk then kickS s1 else s1
      let s3 := lctS s2
      { s3 with bw := s3.bw.map (fun b0 =>
          let b1 := if cg then gainB b0 else b0
          let b2 := if nk then kickB b1 else b1
          lctB b2) }) }

/-- `CrystalSlice._propagate_n0n2_lct` (crystal.py lines 449-504): same
per-slice sequence as `_propagate_abcd_lct` with a per-call ABCD matrix
(identical at trace level); also calls `resize_laser_mesh` at the end
(container method, trace-transparent). -/
def propagateN0n2LctP (cg nk : Bool) (p : Pulse) : Pulse :=
  { p with slices := p.slices.map (fun s0 =>
      let s1 := if cg then gainS s0 else s0
      let s2 := if nk then kickS s1 else s1
      let s3 := lctS s2
      { s3 with bw := s3.bw.map (fun b0 =>
          let b1 := if cg then gainB b0 else b0
          let b2 := if nk then kickB b1 else b1
          lctB b2) }) }

/-- `CrystalSlice._propagate_n0n2_srw` (crystal.py lines 554-608): per
(sub-)slice, optionally gain, optionally kick, then
`srwl.PropagElecField` with the precomputed beamline. -/
def propagateN0n2SrwP (cg nk : Bool) (p : Pulse) : Pulse :=
  { p with slices := p.slices.map (fun s0 =>
      let s1 := if cg then gainS s0 else s0
      let s2 := if nk then kickS s1 else s1
      let s3 := srwS s2
      { s3 with bw := s3.bw.map (fun b0 =>
          let b1 := if cg then gainB b0 else b0
          let b2 := if nk then kickB b1 else b1
          srwB b2) }) }

/-- `CrystalSlice._propagate_gain_calc` (crystal.py lines 610-618): gain on
every time slice and every bandwidth sub-slice, regardless of the
`calc_gain` parameter; the `nl_kick` parameter is never used. -/
def propagateGainCalcP (_cg _nk : Bool) (p : Pulse) : Pulse :=
  { p with slices := p.slices.map (fun s0 =>
      let s1 := gainS s0
      { s1 with bw := s1.bw.map (fun b0 => gainB b0) }) }

/-- Expected operation suffix of one gain/kick/transform pass, per the spec
(section 4.2): gain when `calc_gain`, then kick when `nl_kick`, then the
optical transform `op`; on a bandwidth sub-slice. -/
def expectedBw (cg nk : Bool) (op : PropOp) (b : BwSlice) : BwSlice :=
  { ops := b.ops ++ (if cg then [PropOp.gain] else [])
      ++ (if nk then [PropOp.kick] else []) ++ [op] }

/-- Expected operation suffix of one gain/kick/transform pass, per the spec
(section 4.2); on a time slice and all its bandwidth sub-slices. -/
def expectedSlice (cg nk : Bool) (op : PropOp) (s : PulseSlice) : PulseSlice :=
  { ops := s.ops ++ (if cg then [PropOp.gain] else [])
      ++ (if nk then [PropOp.kick] else []) ++ [op],
    bw := s.bw.map (expectedBw cg nk op) }

/-- `Element._prop_abcd_lct` (element.py lines 64-190): LCT transform on
every time slice and bandwidth sub-slice, then `resize_laser_mesh`
(trace-transparent). -/
def elementAbcdLctP (p : Pulse) : Pulse :=
  { p with slices := p.slices.map (fun s0 =>
      let s1 := lctS s0
      { s1 with bw := s1.bw.map (fun b0 => lctB b0) }) }

/-- `_split_beam` (element.py lines 193-242): scales every time slice and
bandwidth sub-slice by the transmitted fraction. -/
def splitBeamP (p : Pulse) : Pulse :=
  { p with slices := p.slices.map (fun s0 =>
      let s1 := splitS s0
      { s1 with bw := s1.bw.map (fun b0 => splitB b0) }) }

/-- The `CrystalSlice` state relevant to dispatch: `__init__` sets
`self.prop_type = "srw"` (crystal.py line 319) and never sets `_srwc`. -/
structure CSliceT where
  prop_type : String
  has_srwc : Bool
  deriving DecidableEq, Repr

/-- A `CrystalSlice` as built by its constructor. -/
def csInit : CSliceT := { prop_type := "srw", has_srwc := false }

/-- `Element.propagate` (element.py lines 17-36): rejects a non-default
`prop_type` argument, then dispatches on `self.prop_type`: `"srw"` requires
the `_srwc` attribute (raising `ElementException` when absent) and
propagates each time slice wavefront through SRW; `"lct"` runs
`_prop_abcd_lct`; `"beamsplitter"` runs `_split_beam`; anything else falls
through; finally `update_photon_positions` (trace-transparent). -/
def elementPropagate (selfPropType : String) (hasSrwc : Bool)
    (propType : String) (p : Pulse) : Except String Pulse :=
  if propType ≠ "default" then
    Except.error "Non default prop_type passed to propagation"
  else if selfPropType = "srw" then
    if hasSrwc then Except.ok { p with slices := p.slices.map srwS }
    else Except.error "srwc field is expected to be set"
  else if selfPropType = "lct" then Except.ok (elementAbcdLctP p)
  else if selfPropType = "beamsplitter" then Except.ok (splitBeamP p)
  else Except.ok p

/-- `CrystalSlice.propagate` (crystal.py lines 630-640): `"default"`
forwards to `Element.propagate` and discards its result (the Python
function returns `None`, embedded as `Option.none`); the four recognized
modes dispatch through the `PKDict`; an unknown mode raises a `KeyError`
from the dictionary lookup. -/
def csPropagateT (cs : CSliceT) (propType : String) (cg nk : Bool)
    (p : Pulse) : Except String (Option Pulse) :=
  if propType = "default" then
    (elementPropagate cs.prop_type cs.has_srwc "default" p).map fun _ => none
  else if propType = "abcd_lct" then
    Except.ok (some (propagateAbcdLctP cg nk p))
  else if propType = "n0n2_lct" then
    Except.ok (some (propagateN0n2LctP cg nk p))
  else if propType = "n0n2_srw" then
    Except.ok (some (propagateN0n2SrwP cg nk p))
  else if propType = "gain_calc" then
    Except.ok (some (propagateGainCalcP cg nk p))
  else Except.error "KeyError"

/-- Modelled from the spec: `LaserPulse.combine_n2_variation` lives in the
pulse container (rslaser.pulse, not under src/); spec section 4.1 describes
it as a radial blend of the two propagated copies and section 9 leaves its
exact weights open.  At the trace level both copies have undergone the very
same operation sequence, and the blend combines their fields without
applying any further operation, so the blended pulse carries the first
(`n2_max`) copy's history. -/
def combineN2 (pA : Pulse) (_pB : Pulse) : Pulse := pA

/-- One iteration of the slice loop of `Crystal.propagate` (crystal.py
lines 170-199): with `radial_n2` the mode must be `"n0n2_srw"` (assert),
two deep copies of the pulse are propagated through the slice — `nl_kick`
is not forwarded, so it defaults to `False` — and blended; otherwise the
pulse is propagated once with all flags forwarded.  A `None` result would
crash at `update_photon_positions`. -/
def crystalSliceStep (propType : String) (cg radial nk : Bool)
    (s : CSliceT) (p : Pulse) : Except String Pulse :=
  if radial then
    if propType ≠ "n0n2_srw" then
      Except.error "Only implemented for n0n2_srw"
    else
      match csPropagateT s propType cg false p,
          csPropagateT s propType cg false p with
      | Except.ok (some pA), Except.ok (some pB) => Except.ok (combineN2 pA pB)
      | Except.error e, _ => Except.error e
      | _, Except.error e => Except.error e
      | _, _ => Except.error "NoneType"
  else
    match csPropagateT s propType cg nk p with
    | Except.ok (some q) => Except.ok q
    | Except.ok none => Except.error "NoneType"
    | Except.error e => Except.error e

/-- `Crystal.propagate` (crystal.py lines 147-212): validates the pulse
direction (0.0 or 180.0, else an assertion failure), picks forward or
reversed slice order, optionally shifts the transverse frame for an offset
pump (container method, trace-transparent), then folds the slice loop;
`resize_laser_mesh` at the end is trace-transparent. -/
def crystalPropagateT (slices : List CSliceT) (propType : String)
    (cg radial nk : Bool) (p : Pulse) : Except String Pulse :=
  if p.direction = 0 ∨ p.direction = 180 then
    let arr := if p.direction = 0 then slices else slices.reverse
    arr.foldlM (fun q s => crystalSliceStep propType cg radial nk s q) p
  else Except.error "Propagation not implemented for the pulse direction"

/-- No nonlinear kick recorded anywhere on a time slice. -/
def noKickSlice (s : PulseSlice) : Prop :=
  PropOp.kick ∉ s.ops ∧ ∀ b ∈ s.bw, PropOp.kick ∉ b.ops

/-- No nonlinear kick recorded anywhere on a pulse. -/
def noKickPulse (p : Pulse) : Prop := ∀ s ∈ p.slices, noKickSlice s

/-! ## Optical system built by `_propagate_n0n2_srw` (crystal.py 554-586) -/

/-- One SRW optical element of the beamline handed to the external
fixed-index propagator. -/
inductive SrwOptic
  | drift (len : ℝ)
  | lens (fx fy : ℝ)

/-- `np.sinc`: the normalized sinc, `sin(pi x)/(pi x)` with value 1 at
zero. -/
noncomputable def npSinc (x : ℝ) : ℝ :=
  if x = 0 then 1 else Real.sin (Real.pi * x) / (Real.pi * x)

/-- The beamline `optBL` built by `CrystalSlice._propagate_n0n2_srw`
(crystal.py lines 560-586): a single drift of length `L/n0` when `n2 == 0`,
otherwise the thin-lens / drift / thin-lens realization of the analytic
graded-index matrix (`C = -n0*gamma*sin(gamma*L)` is computed in the
source but unused by the decomposition). -/
noncomputable def n0n2SrwOptics (n0 n2 L_slice : ℝ) : List SrwOptic :=
  if n2 = 0 then [SrwOptic.drift (L_slice / n0)]
  else
    let gamma := Real.sqrt (n2 / n0)
    let A := Real.cos (gamma * L_slice)
    let B := L_slice * npSinc (gamma * L_slice / Real.pi)
    let D := Real.cos (gamma * L_slice)
    let f1 := B / (1 - A)
    let L := B
    let f2 := B / (1 - D)
    [SrwOptic.lens f1 f1, SrwOptic.drift L, SrwOptic.lens f2 f2]

/-- Spec-side `A` entry of the analytic graded-index ABCD matrix
(spec section 4.2): `A = cos(gamma*L)` with `gamma = sqrt(n2/n0)`. -/
noncomputable def gradedA (n0 n2 L : ℝ) : ℝ :=
  Real.cos (Real.sqrt (n2 / n0) * L)

/-- Spec-side `B` entry: `B = L * sinc(gamma*L/pi)` (normalized sinc). -/
noncomputable def gradedB (n0 n2 L : ℝ) : ℝ :=
  L * npSinc (Real.sqrt (n2 / n0) * L / Real.pi)

/-- Spec-side `D` entry: `D = cos(gamma*L)`. -/
noncomputable def gradedD (n0 n2 L : ℝ) : ℝ :=
  Real.cos (Real.sqrt (n2 / n0) * L)

/-! ## Grid bookkeeping of the LCT front end (crystal.py 904-1013) -/

/-- A sampling axis `np.linspace(lo, hi, n)`. -/
structure Axis where
  lo : ℝ
  hi : ℝ
  n : ℕ

/-- `_interp_to_odd` on one axis (crystal.py lines 904-914): an even-count
axis is resampled over the same physical span
(`np.linspace(np.min(x_old), np.max(x_old), nx + 1)`, and the minimum and
maximum of a linspace are the ordered endpoints) with one added sample; an
odd-count axis is copied unchanged. -/
noncomputable def interpToOddAxis (a : Axis) : Axis :=
  if a.n % 2 = 0 then { lo := min a.lo a.hi, hi := max a.lo a.hi, n := a.n + 1 }
  else a

/-- Grid dataflow of `_propagate_lct` (crystal.py lines 929-1013): the
input axes are passed through `_interp_to_odd` before the external LCT
kernel is invoked on the resampled field; the kernel returns a `p × q`
field with spacings `dX_out, dY_out`, from which centered axes are built
and passed through `_interp_to_odd` again; the reconstructed wavefront
grid counts come from the shape of the re-interpolated field
(`ny, nx = np.shape(...)`).  Returns the kernel-input counts and the
final wavefront grid counts `(nx, ny)`. -/
noncomputable def propagateLctGridCounts (ax ay : Axis) (dXout dYout : ℝ)
    (p q : ℕ) : (ℕ × ℕ) × (ℕ × ℕ) :=
  let axK := interpToOddAxis ax
  let ayK := interpToOddAxis ay
  let xold : Axis :=
    ⟨-(((p - 1 : ℕ) : ℝ) * dXout / 2), ((p - 1 : ℕ) : ℝ) * dXout / 2, p⟩
  let yold : Axis :=
    ⟨-(((q - 1 : ℕ) : ℝ) * dYout / 2), ((q - 1 : ℕ) : ℝ) * dYout / 2, q⟩
  let xnew := interpToOddAxis xold
  let ynew := interpToOddAxis yold
  ((axK.n, ayK.n), (ynew.n, xnew.n))

/-! ## `Crystal._get_params` configuration policy (crystal.py 115-145) -/

/-- The user-supplied configuration fields relevant to the slice-count
policy.  Python truthiness: an absent key, `nslice = 0` and an empty list
are all falsy. -/
structure CrystalParamsIn where
  nslice : Option ℕ
  n0 : Option (List ℝ)
  n2 : Option (List ℝ)

/-- The merged parameters after defaults are applied. -/
structure CrystalParamsFinal where
  nslice : ℕ
  n0 : List ℝ
  n2 : List ℝ

/-- Python truthiness of `o.get("nslice")`. -/
def truthyNat : Option ℕ → Bool
  | some (_ + 1) => true
  | _ => false

/-- Python truthiness of `o.get("n0")` / `o.get("n2")`. -/
def truthyList : Option (List ℝ) → Bool
  | some (_ :: _) => true
  | _ => false

/-- Modelled from the spec: `ValidatorBase._get_params`
(rslaser.utils.validator, not under src/) merges the user configuration
over `_CRYSTAL_DEFAULTS` (crystal.py lines 24-63: `nslice = 50`,
`n0 = [1.75] * 50`, `n2 = [0.001] * 50`); spec section 1 places the
defaults plumbing out of scope, specifying only that construction starts
from configuration merged with defaults. -/
noncomputable def getParamsBase (o : CrystalParamsIn) : CrystalParamsFinal :=
  { nslice := o.nslice.getD 50,
    n0 := o.n0.getD (List.replicate 50 1.75),
    n2 := o.n2.getD (List.replicate 50 0.001) }

/-- `_update_n0_and_n2` (crystal.py lines 116-130) for one field: on a
length mismatch with `nslice`, refill from defaults when the user did not
supply the field, else raise. -/
noncomputable def updateField (nslice : ℕ) (arr : List ℝ)
    (userProvided : Bool) (defaultVal : ℝ) (msg : String) :
    Except String (List ℝ) :=
  if arr.length ≠ nslice then
    if userProvided then Except.error msg
    else Except.ok (List.replicate nslice defaultVal)
  else Except.ok arr

/-- `Crystal._get_params` (crystal.py lines 115-145). -/
noncomputable def crystalGetParams (o : CrystalParamsIn) :
    Except String CrystalParamsFinal :=
  let p := getParamsBase o
  if truthyNat o.nslice = false ∧ truthyList o.n0 = false ∧
      truthyList o.n2 = false then
    Except.ok p
  else if truthyNat o.nslice then
    match updateField p.nslice p.n0 (truthyList o.n0) 1.75
        "n0 unequal length to nslice" with
    | Except.error e => Except.error e
    | Except.ok a0 =>
      match updateField p.nslice p.n2 (truthyList o.n2) 0.001
          "n2 unequal length to nslice" with
      | Except.error e => Except.error e
      | Except.ok a2 => Except.ok { p with n0 := a0, n2 := a2 }
  else if truthyList o.n0 = true ∨ truthyList o.n2 = true then
    Except.ok (if p.n0.length < p.nslice ∨ p.n2.length < p.nslice
      then { p with nslice := min p.n0.length p.n2.length }
      else p)
  else Except.ok p

/-- Concrete configuration: `n0` and `n2` each 60 entries long, `nslice`
not supplied. -/
noncomputable def paramsSixty : CrystalParamsIn :=
  { nslice := none,
    n0 := some (List.replicate 60 2.0),
    n2 := some (List.replicate 60 0.5) }

/-- A concrete empty pulse travelling forward. -/
def pulseEx : Pulse := { slices := [], direction := 0 }

/-- A concrete one-slice pulse with empty history, travelling forward. -/
def pulseOne : Pulse :=
  { slices := [{ ops := [], bw := [] }], direction := 0 }

/-! ## Basic facts about the gain cell model -/

theorem satDen_zero (a : ℝ) : satDen a 0 = 1 := by simp [satDen]

theorem satDen_hasDeriv (a t : ℝ) :
    HasDerivAt (satDen a) (a * Real.exp t) t := by
  have h := ((Real.hasDerivAt_exp t).sub_const 1).const_mul a
  simpa [satDen] using h.const_add 1

theorem isOpen_satDen_pos (a : ℝ) : IsOpen {t : ℝ | 0 < satDen a t} := by
  have hc : Continuous (satDen a) := by
    unfold satDen
    exact continuous_const.add
      (continuous_const.mul (Real.continuous_exp.sub continuous_const))
  exact isOpen_lt continuous_const hc

theorem zero_mem_satDen_pos (a : ℝ) : (0 : ℝ) ∈ {t : ℝ | 0 < satDen a t} := by
  simp [satDen]

theorem hasDerivAt_satGainLog (a : ℝ) {t : ℝ} (ht : 0 < satDen a t) :
    HasDerivAt (fun u => Real.log (satDen a u)) (satG1 a t) t := by
  have h := (satDen_hasDeriv a t).log (ne_of_gt ht)
  simpa [satG1] using h

theorem hasDerivAt_satG1 (a : ℝ) {t : ℝ} (ht : 0 < satDen a t) :
    HasDerivAt (satG1 a) (satG2 a t) t := by
  have hne : satDen a t ≠ 0 := ne_of_gt ht
  have hnum : HasDerivAt (fun u => a * Real.exp u) (a * Real.exp t) t :=
    (Real.hasDerivAt_exp t).const_mul a
  have h := hnum.div (satDen_hasDeriv a t) hne
  have key : satG2 a t =
      (a * Real.exp t * satDen a t - a * Real.exp t * (a * Real.exp t)) /
        satDen a t ^ 2 := by
    unfold satG2 satDen; congr 1; ring
  rw [key]; exact h

theorem hasDerivAt_satG2 (a : ℝ) {t : ℝ} (ht : 0 < satDen a t) :
    HasDerivAt (satG2 a) (satG3 a t) t := by
  have hne : satDen a t ≠ 0 := ne_of_gt ht
  have hnum : HasDerivAt (fun u => a * (1 - a) * Real.exp u)
      (a * (1 - a) * Real.exp t) t :=
    (Real.hasDerivAt_exp t).const_mul (a * (1 - a))
  have hden := (satDen_hasDeriv a t).pow 2
  have h := hnum.div hden (pow_ne_zero 2 hne)
  convert h using 1
  unfold satG3
  rw [div_eq_div_iff (pow_ne_zero 3 hne) (pow_ne_zero 2 (pow_ne_zero 2 hne))]
  unfold satDen
  push_cast
  ring

theorem hasDerivAt_satG3_zero (a : ℝ) :
    HasDerivAt (satG3 a) (a * (1 - a) * (1 - 6 * a + 6 * a ^ 2)) 0 := by
  have hne : satDen a 0 ≠ 0 := by rw [satDen_zero]; norm_num
  have hinner : HasDerivAt (fun u => 1 - a - a * Real.exp u)
      (-(a * Real.exp 0)) 0 :=
    ((Real.hasDerivAt_exp 0).const_mul a).const_sub (1 - a)
  have hmulE := (Real.hasDerivAt_exp 0).mul hinner
  have hnum := hmulE.const_mul (a * (1 - a))
  have hden := (satDen_hasDeriv a 0).pow 3
  have h := hnum.div hden (pow_ne_zero 3 hne)
  convert h using 1
  rw [satDen_zero]
  simp only [Real.exp_zero, one_mul, mul_one, one_pow]
  push_cast
  ring

theorem deriv_satGainLog_eqOn (a : ℝ) :
    Set.EqOn (deriv (fun u => Real.log (satDen a u))) (satG1 a)
      {t : ℝ | 0 < satDen a t} :=
  fun _ ht => (hasDerivAt_satGainLog a ht).deriv

theorem deriv2_satGainLog_eqOn (a : ℝ) :
    Set.EqOn (deriv (deriv (fun u => Real.log (satDen a u)))) (satG2 a)
      {t : ℝ | 0 < satDen a t} := by
  intro t ht
  have hm : {u : ℝ | 0 < satDen a u} ∈ nhds t :=
    (isOpen_satDen_pos a).mem_nhds ht
  have he : deriv (fun u => Real.log (satDen a u)) =ᶠ[nhds t] satG1 a :=
    Filter.eventuallyEq_of_mem hm (deriv_satGainLog_eqOn a)
  rw [he.deriv_eq]
  exact (hasDerivAt_satG1 a ht).deriv

theorem deriv3_satGainLog_eqOn (a : ℝ) :
    Set.EqOn (deriv (deriv (deriv (fun u => Real.log (satDen a u)))))
      (satG3 a) {t : ℝ | 0 < satDen a t} := by
  intro t ht
  have hm : {u : ℝ | 0 < satDen a u} ∈ nhds t :=
    (isOpen_satDen_pos a).mem_nhds ht
  have he : deriv (deriv (fun u => Real.log (satDen a u))) =ᶠ[nhds t]
      satG2 a :=
    Filter.eventuallyEq_of_mem hm (deriv2_satGainLog_eqOn a)
  rw [he.deriv_eq]
  exact (hasDerivAt_satG2 a ht).deriv

theorem satGainLog_eq_log_satDen (β : ℝ) :
    satGainLog β = fun u => Real.log (satDen (Real.exp β) u) := rfl

theorem iteratedDeriv_one_satGainLog (β : ℝ) :
    iteratedDeriv 1 (satGainLog β) 0 = Real.exp β := by
  rw [iteratedDeriv_one, satGainLog_eq_log_satDen]
  rw [deriv_satGainLog_eqOn (Real.exp β) (zero_mem_satDen_pos _)]
  simp [satG1, satDen]

theorem iteratedDeriv_two_satGainLog (β : ℝ) :
    iteratedDeriv 2 (satGainLog β) 0 =
      Real.exp β * (1 - Real.exp β) := by
  rw [iteratedDeriv_succ, iteratedDeriv_one, satGainLog_eq_log_satDen]
  rw [deriv2_satGainLog_eqOn (Real.exp β) (zero_mem_satDen_pos _)]
  simp [satG2, satDen]

theorem iteratedDeriv_three_satGainLog (β : ℝ) :
    iteratedDeriv 3 (satGainLog β) 0 =
      Real.exp β * (1 - Real.exp β) * (1 - 2 * Real.exp β) := by
  rw [iteratedDeriv_succ, iteratedDeriv_succ, iteratedDeriv_one,
    satGainLog_eq_log_satDen]
  rw [deriv3_satGainLog_eqOn (Real.exp β) (zero_mem_satDen_pos _)]
  unfold satG3
  rw [satDen_zero]
  simp only [Real.exp_zero, mul_one, one_pow, div_one]
  ring

theorem iteratedDeriv_four_satGainLog (β : ℝ) :
    iteratedDeriv 4 (satGainLog β) 0 =
      Real.exp β * (1 - Real.exp β)
        * (1 - 6 * Real.exp β + 6 * Real.exp β ^ 2) := by
  rw [iteratedDeriv_succ, iteratedDeriv_succ, iteratedDeriv_succ,
    iteratedDeriv_one, satGainLog_eq_log_satDen]
  have hm : {u : ℝ | 0 < satDen (Real.exp β) u} ∈ nhds (0 : ℝ) :=
    (isOpen_satDen_pos _).mem_nhds (zero_mem_satDen_pos _)
  have he : deriv (deriv (deriv (fun u => Real.log (satDen (Real.exp β) u))))
      =ᶠ[nhds (0 : ℝ)] satG3 (Real.exp β) :=
    Filter.eventuallyEq_of_mem hm (deriv3_satGainLog_eqOn _)
  rw [he.deriv_eq]
  exact (hasDerivAt_satG3_zero (Real.exp β)).deriv

theorem taylorGain4_explicit (β ε : ℝ) :
    taylorGain4 β ε =
      Real.exp β - 0.5 * ε * Real.exp β * (Real.exp β - 1)
        + 1 / 6 * ε ^ 2 * Real.exp β
            * (1 - 3 * Real.exp β + 2 * Real.exp (2 * β))
        + 1 / 24 * ε ^ 3 * Real.exp β
            * (1 - 7 * Real.exp β + 12 * Real.exp (2 * β)
                - 6 * Real.exp (3 * β)) := by
  have e2 : Real.exp (2 * β) = Real.exp β * Real.exp β := by
    rw [two_mul, Real.exp_add]
  have e3 : Real.exp (3 * β) = Real.exp β * Real.exp β * Real.exp β := by
    rw [show (3 : ℝ) * β = β + β + β by ring, Real.exp_add, Real.exp_add]
  have h1 : deriv (satGainLog β) 0 = Real.exp β := by
    rw [← iteratedDeriv_one]; exact iteratedDeriv_one_satGainLog β
  unfold taylorGain4 taylorGainCoeff
  rw [Finset.sum_range_succ, Finset.sum_range_succ, Finset.sum_range_succ,
    Finset.sum_range_succ, Finset.sum_range_zero]
  norm_num [Nat.factorial]
  rw [h1, iteratedDeriv_two_satGainLog,
    iteratedDeriv_three_satGainLog, iteratedDeriv_four_satGainLog, e2, e3]
  ring

/-- C1: In `CrystalSlice.calc_gain`, for every mesh cell the per-cell
energy gain is computed by a two-branch rule keyed on
`epsilon = degeneracy * sigma * (photon areal density)`: when
`epsilon >= 1e-5` the gain equals the closed form
`(1/epsilon) * ln(1 + e^beta * (e^epsilon - 1))` with
`beta = sigma * (population inversion) * slice length`, and when
`epsilon < 1e-5` the gain equals the 4-term Taylor expansion of that
formula in `epsilon`. -/
theorem calc_gain_two_branch_rule (σ Nd P L : ℝ) :
    cellEnergyGain σ Nd P L =
      if epsilonOf σ Nd < 1e-5 then
        taylorGain4 (betaOf σ P L) (epsilonOf σ Nd)
      else
        (1 / epsilonOf σ Nd) *
          Real.log (1 + Real.exp (betaOf σ P L)
            * (Real.exp (epsilonOf σ Nd) - 1)) := by
  unfold cellEnergyGain energyGainCell
  by_cases h : epsilonOf σ Nd < 1e-5
  · rw [if_pos h, if_pos h, taylorGain4_explicit]
  · rw [if_neg h, if_neg h]

theorem one_le_clampGainCell (ε β : ℝ) : 1 ≤ clampGainCell ε β := by
  unfold clampGainCell
  by_cases h : energyGainCell ε β < 1
  · rw [if_pos h]
  · rw [if_neg h]; exact not_lt.mp h

/-- C2: For all `epsilon, beta >= 0`, the per-cell energy gain that
`CrystalSlice.calc_gain` applies (after the clamp) is `>= 1.0` in every
cell; no gain application ever multiplies the photon-count mesh or the
field amplitude by a factor below 1. -/
theorem calc_gain_clamp_ge_one (ε β : ℝ) (hε : 0 ≤ ε) (hβ : 0 ≤ β) :
    1 ≤ clampGainCell ε β ∧ 1 ≤ photonFactorCell ε β ∧
      1 ≤ fieldFactorCell ε β := by
  refine ⟨one_le_clampGainCell ε β, one_le_clampGainCell ε β, ?_⟩
  unfold fieldFactorCell
  exact Real.one_le_sqrt.mpr (one_le_clampGainCell ε β)

/-- Witness for `calc_gain_clamp_ge_one` at `epsilon = beta = 0`. -/
theorem calc_gain_clamp_ge_one_witness :
    1 ≤ clampGainCell 0 0 ∧ 1 ≤ photonFactorCell 0 0 ∧
      1 ≤ fieldFactorCell 0 0 :=
  calc_gain_clamp_ge_one 0 0 le_rfl le_rfl

/-- On the wavefront grid the change mesh accumulated by `calc_gain` into
the population-inversion mesh is nowhere positive (for a nonnegative
photon count and positive slice length): supports claim C3 on the source
side of the resampling step. -/
theorem changePopCell_nonpos (Nd ε β L : ℝ) (hN : 0 ≤ Nd) (hL : 0 < L) :
    changePopCell Nd ε β L ≤ 0 := by
  unfold changePopCell
  have hg : 0 ≤ clampGainCell ε β - 1 :=
    sub_nonneg.mpr (one_le_clampGainCell ε β)
  have hd : (0 : ℝ) ≤ degenFactor := by norm_num [degenFactor]
  have : 0 ≤ degenFactor * Nd * (clampGainCell ε β - 1) / L :=
    div_nonneg (mul_nonneg (mul_nonneg hd hN) hg) hL.le
  linarith

/-- When the wavefront grid coincides with the inversion-mesh grid (the
`np.array_equal` short-circuit of `_interpolate_a_to_b`), one gain event
leaves every cell of the population-inversion mesh less than or equal to
its previous value: the equal-grid part of claim C3. -/
theorem popUpdateEqualGrid_nonincreasing {ι : Type}
    (pop Nd ε β : ι → ℝ) (L : ℝ) (hN : ∀ i, 0 ≤ Nd i) (hL : 0 < L) :
    ∀ i, popUpdateEqualGrid pop Nd ε β L i ≤ pop i := by
  intro i
  unfold popUpdateEqualGrid
  have := changePopCell_nonpos (Nd i) (ε i) (β i) L (hN i) hL
  linarith

/-! ## Trace shape of the propagation modes -/

theorem propagateAbcdLctP_slices (cg nk : Bool) (p : Pulse) :
    (propagateAbcdLctP cg nk p).slices =
      p.slices.map (expectedSlice cg nk PropOp.lct) := by
  unfold propagateAbcdLctP
  dsimp only
  apply List.map_congr_left
  intro s _
  cases cg <;> cases nk <;>
    simp [expectedSlice, expectedBw, gainS, kickS, lctS, gainB, kickB, lctB,
      List.append_assoc]

theorem propagateN0n2LctP_slices (cg nk : Bool) (p : Pulse) :
    (propagateN0n2LctP cg nk p).slices =
      p.slices.map (expectedSlice cg nk PropOp.lct) := by
  unfold propagateN0n2LctP
  dsimp only
  apply List.map_congr_left
  intro s _
  cases cg <;> cases nk <;>
    simp [expectedSlice, expectedBw, gainS, kickS, lctS, gainB, kickB, lctB,
      List.append_assoc]

theorem propagateN0n2SrwP_slices (cg nk : Bool) (p : Pulse) :
    (propagateN0n2SrwP cg nk p).slices =
      p.slices.map (expectedSlice cg nk PropOp.srw) := by
  unfold propagateN0n2SrwP
  dsimp only
  apply List.map_congr_left
  intro s _
  cases cg <;> cases nk <;>
    simp [expectedSlice, expectedBw, gainS, kickS, srwS, gainB, kickB, srwB,
      List.append_assoc]

theorem propagateGainCalcP_slices (cg nk : Bool) (p : Pulse) :
    (propagateGainCalcP cg nk p).slices =
      p.slices.map (fun s =>
        { ops := s.ops ++ [PropOp.gain],
          bw := s.bw.map (fun b => { ops := b.ops ++ [PropOp.gain] }) }) := by
  unfold propagateGainCalcP
  dsimp only
  apply List.map_congr_left
  intro s _
  simp [gainS, gainB]

/-- C4: For every time slice and bandwidth sub-slice,
`CrystalSlice.propagate` in modes `abcd_lct` and `n0n2_lct` applies
operations in the order: gain (when `calc_gain` is true), then nonlinear
kick (when `nl_kick` is true), then the optical transform on that same
field; mode `n0n2_srw` applies gain and kick in the same order but
performs the transform step through the external fixed-index propagator
instead of the LCT kernel. -/
theorem propagate_order_gain_kick_transform (cg nk : Bool) (p : Pulse) :
    (propagateAbcdLctP cg nk p).slices =
        p.slices.map (expectedSlice cg nk PropOp.lct) ∧
      (propagateN0n2LctP cg nk p).slices =
        p.slices.map (expectedSlice cg nk PropOp.lct) ∧
      (propagateN0n2SrwP cg nk p).slices =
        p.slices.map (expectedSlice cg nk PropOp.srw) :=
  ⟨propagateAbcdLctP_slices cg nk p, propagateN0n2LctP_slices cg nk p,
    propagateN0n2SrwP_slices cg nk p⟩

/-- C8: In mode `gain_calc`, `CrystalSlice.propagate` applies the gain
calculation to every time slice and every bandwidth sub-slice regardless
of the `calc_gain` argument (gain is applied even when `calc_gain` is
false), and never applies the nonlinear kick even when `nl_kick` is
true. -/
theorem gain_calc_mode_always_gains (cg nk cg' nk' : Bool) (p : Pulse) :
    propagateGainCalcP cg nk p = propagateGainCalcP cg' nk' p ∧
      (propagateGainCalcP cg nk p).slices =
        p.slices.map (fun s =>
          { ops := s.ops ++ [PropOp.gain],
            bw := s.bw.map (fun b => { ops := b.ops ++ [PropOp.gain] }) }) :=
  ⟨rfl, propagateGainCalcP_slices cg nk p⟩

/-- The claim that `CrystalSlice.propagate` with `prop_type = "default"`
returns `None` fails on a `CrystalSlice` as constructed: `__init__` sets
`prop_type = "srw"` but never sets `_srwc`, so the forwarded
`Element.propagate` raises `ElementException` instead of returning. -/
theorem cs_propagate_default_counterexample :
    csPropagateT csInit "default" false false pulseEx =
        Except.error "srwc field is expected to be set" ∧
      csPropagateT csInit "default" false false pulseEx ≠
        Except.ok none := by
  constructor
  · rfl
  · intro h
    simp [csPropagateT, csInit, elementPropagate, Except.map] at h

/-- C10 (amended): `CrystalSlice.propagate` with `prop_type "default"`
forwards to `Element.propagate` and discards its result; because the
constructor sets `prop_type = "srw"` without setting `_srwc`, that
forwarded call raises `ElementException`, so the call fails rather than
returning `None`; every other recognized mode returns the propagated
pulse. -/
theorem cs_propagate_dispatch (cg nk : Bool) (p : Pulse) :
    csPropagateT csInit "default" cg nk p =
        Except.error "srwc field is expected to be set" ∧
      csPropagateT csInit "abcd_lct" cg nk p =
        Except.ok (some (propagateAbcdLctP cg nk p)) ∧
      csPropagateT csInit "n0n2_lct" cg nk p =
        Except.ok (some (propagateN0n2LctP cg nk p)) ∧
      csPropagateT csInit "n0n2_srw" cg nk p =
        Except.ok (some (propagateN0n2SrwP cg nk p)) ∧
      csPropagateT csInit "gain_calc" cg nk p =
        Except.ok (some (propagateGainCalcP cg nk p)) :=
  ⟨rfl, rfl, rfl, rfl, rfl⟩

/-! ## No-kick preservation in the radial branch of `Crystal.propagate` -/

theorem noKick_propagateN0n2SrwP (cg : Bool) (p : Pulse)
    (h : noKickPulse p) : noKickPulse (propagateN0n2SrwP cg false p) := by
  intro s hs
  rw [propagateN0n2SrwP_slices] at hs
  rcases List.mem_map.mp hs with ⟨s0, hs0, rfl⟩
  rcases h s0 hs0 with ⟨h1, h2⟩
  constructor
  · cases cg <;>
      simp_all [expectedSlice, List.mem_append]
  · intro b hb
    rcases List.mem_map.mp hb with ⟨b0, hb0, rfl⟩
    have := h2 b0 hb0
    cases cg <;> simp_all [expectedBw, List.mem_append]

theorem crystalSliceStep_radial_noKick (propType : String) (cg nk : Bool)
    (s : CSliceT) (q q' : Pulse)
    (hstep : crystalSliceStep propType cg true nk s q = Except.ok q')
    (hq : noKickPulse q) : noKickPulse q' := by
  by_cases hpt : propType = "n0n2_srw"
  · subst hpt
    have hstep2 : Except.ok (combineN2 (propagateN0n2SrwP cg false q)
        (propagateN0n2SrwP cg false q)) = Except.ok q' := hstep
    cases hstep2
    exact noKick_propagateN0n2SrwP cg q hq
  · have herr : crystalSliceStep propType cg true nk s q =
        Except.error "Only implemented for n0n2_srw" := by
      unfold crystalSliceStep
      simp [hpt]
    rw [herr] at hstep
    cases hstep

theorem crystalFold_radial_noKick (propType : String) (cg nk : Bool) :
    ∀ (arr : List CSliceT) (p q : Pulse),
      arr.foldlM
          (fun r s => crystalSliceStep propType cg true nk s r) p =
        Except.ok q →
      noKickPulse p → noKickPulse q := by
  intro arr
  induction arr with
  | nil =>
    intro p q hfold hp
    simp only [List.foldlM] at hfold
    cases hfold
    exact hp
  | cons s rest ih =>
    intro p q hfold hp
    rw [List.foldlM_cons] at hfold
    cases hstep : crystalSliceStep propType cg true nk s p with
    | error e => rw [hstep] at hfold; cases hfold
    | ok mid =>
      rw [hstep] at hfold
      exact ih mid q hfold
        (crystalSliceStep_radial_noKick propType cg nk s p mid hstep hp)

/-- C9: When `Crystal.propagate` is called with `radial_n2 = True`, the
`nl_kick` argument is not forwarded to the per-slice propagation of either
pulse copy (the result does not depend on `nl_kick` at all), so no
nonlinear kick is applied to any slice on that pass even when
`nl_kick = True`. -/
theorem crystal_radial_n2_no_kick (slices : List CSliceT)
    (propType : String) (cg nk nk' : Bool) (p q : Pulse) :
    crystalPropagateT slices propType cg true nk p =
        crystalPropagateT slices propType cg true nk' p ∧
      (crystalPropagateT slices propType cg true nk p = Except.ok q →
        noKickPulse p → noKickPulse q) := by
  constructor
  · rfl
  · intro hrun hp
    unfold crystalPropagateT at hrun
    by_cases hdir : p.direction = 0 ∨ p.direction = 180
    · rw [if_pos hdir] at hrun
      exact crystalFold_radial_noKick propType cg nk _ p q hrun hp
    · rw [if_neg hdir] at hrun
      cases hrun

/-- Witness for `crystal_radial_n2_no_kick`: one constructor-state slice, a
one-slice pulse with empty history, `nl_kick = true`; the pass records gain
then the SRW transform and no kick. -/
theorem crystal_radial_n2_no_kick_witness :
    noKickPulse
        { slices := [{ ops := [PropOp.gain, PropOp.srw], bw := [] }],
          direction := 0 } ∧
      crystalPropagateT [csInit] "n0n2_srw" true true true pulseOne =
        crystalPropagateT [csInit] "n0n2_srw" true true false pulseOne := by
  constructor
  · exact (crystal_radial_n2_no_kick [csInit] "n0n2_srw" true true false
      pulseOne
      { slices := [{ ops := [PropOp.gain, PropOp.srw], bw := [] }],
        direction := 0 }).2
      (by rfl)
      (by intro s hs; simp [pulseOne] at hs; subst hs
          exact ⟨by simp, by simp⟩)
  · exact (crystal_radial_n2_no_kick [csInit] "n0n2_srw" true true false
      pulseOne pulseOne).1

/-- C5: In mode `n0n2_srw`, when the slice has `n2 = 0` the constructed
optical system is exactly a single drift of length `L/n0` (`L` the slice
length, `n0` the on-axis index); when `n2 != 0` it is the
thin-lens/drift/thin-lens decomposition with `f1 = B/(1-A)`, drift length
`L = B`, `f2 = B/(1-D)` of the analytic graded-index ABCD matrix. -/
theorem n0n2_srw_system (n0 n2 L : ℝ) :
    (n2 = 0 → n0n2SrwOptics n0 n2 L = [SrwOptic.drift (L / n0)]) ∧
      (n2 ≠ 0 → n0n2SrwOptics n0 n2 L =
        [SrwOptic.lens (gradedB n0 n2 L / (1 - gradedA n0 n2 L))
            (gradedB n0 n2 L / (1 - gradedA n0 n2 L)),
          SrwOptic.drift (gradedB n0 n2 L),
          SrwOptic.lens (gradedB n0 n2 L / (1 - gradedD n0 n2 L))
            (gradedB n0 n2 L / (1 - gradedD n0 n2 L))]) := by
  constructor
  · intro h
    unfold n0n2SrwOptics
    rw [if_pos h]
  · intro h
    unfold n0n2SrwOptics
    rw [if_neg h]
    rfl

/-- Witness for `n0n2_srw_system`: the `n2 = 0` case at
`(n0, n2, L) = (2, 0, 1)` and the `n2 != 0` case at `(1, 1, 1)`. -/
theorem n0n2_srw_system_witness :
    n0n2SrwOptics 2 0 1 = [SrwOptic.drift (1 / 2)] ∧
      n0n2SrwOptics 1 1 1 =
        [SrwOptic.lens (gradedB 1 1 1 / (1 - gradedA 1 1 1))
            (gradedB 1 1 1 / (1 - gradedA 1 1 1)),
          SrwOptic.drift (gradedB 1 1 1),
          SrwOptic.lens (gradedB 1 1 1 / (1 - gradedD 1 1 1))
            (gradedB 1 1 1 / (1 - gradedD 1 1 1))] :=
  ⟨(n0n2_srw_system 2 0 1).1 rfl, (n0n2_srw_system 1 1 1).2 one_ne_zero⟩

/-! ## Odd-grid invariant of the LCT front end -/

theorem interpToOddAxis_n (a : Axis) :
    (interpToOddAxis a).n = if a.n % 2 = 0 then a.n + 1 else a.n := by
  unfold interpToOddAxis
  by_cases h : a.n % 2 = 0
  · rw [if_pos h, if_pos h]
  · rw [if_neg h, if_neg h]

theorem odd_interpToOddAxis (a : Axis) : Odd (interpToOddAxis a).n := by
  rw [interpToOddAxis_n, Nat.odd_iff]
  by_cases h : a.n % 2 = 0
  · rw [if_pos h]; omega
  · rw [if_neg h]; omega

/-- C6: For every LCT propagation call, the grid handed to the external
LCT kernel has an odd sample count on both transverse axes, and the grid
of the wavefront reconstructed after the kernel returns also has odd
sample counts on both axes; an even-count axis of size `n` is resampled to
the minimal enclosing odd count `n + 1` via spline interpolation over the
same physical span, while an already-odd axis is left unchanged. -/
theorem lct_odd_grid_invariant :
    (∀ (ax ay : Axis) (dX dY : ℝ) (p q : ℕ),
        Odd (propagateLctGridCounts ax ay dX dY p q).1.1 ∧
        Odd (propagateLctGridCounts ax ay dX dY p q).1.2 ∧
        Odd (propagateLctGridCounts ax ay dX dY p q).2.1 ∧
        Odd (propagateLctGridCounts ax ay dX dY p q).2.2) ∧
      (∀ a : Axis, a.n % 2 = 0 →
        (interpToOddAxis a).n = a.n + 1 ∧ Odd (a.n + 1) ∧
          (∀ m : ℕ, Odd m → a.n ≤ m → a.n + 1 ≤ m) ∧
          (interpToOddAxis a).lo = min a.lo a.hi ∧
          (interpToOddAxis a).hi = max a.lo a.hi) ∧
      (∀ a : Axis, a.n % 2 = 1 → interpToOddAxis a = a) := by
  refine ⟨?_, ?_, ?_⟩
  · intro ax ay dX dY p q
    exact ⟨odd_interpToOddAxis ax, odd_interpToOddAxis ay,
      odd_interpToOddAxis _, odd_interpToOddAxis _⟩
  · intro a h
    refine ⟨?_, ?_, ?_, ?_, ?_⟩
    · rw [interpToOddAxis_n, if_pos h]
    · rw [Nat.odd_iff]; omega
    · intro m hm hle
      rw [Nat.odd_iff] at hm
      omega
    · unfold interpToOddAxis; rw [if_pos h]
    · unfold interpToOddAxis; rw [if_pos h]
  · intro a h
    unfold interpToOddAxis
    rw [if_neg (by omega)]

/-- Witness for `lct_odd_grid_invariant`: axes of 4 and 5 samples, a
kernel output of shape 6 by 7; `4 + 1 = 5` is the least odd count at least
`4`, checked against the odd count `7`. -/
theorem lct_odd_grid_invariant_witness :
    Odd (propagateLctGridCounts ⟨0, 1, 4⟩ ⟨0, 1, 5⟩ 1 1 6 7).1.1 ∧
      Odd (propagateLctGridCounts ⟨0, 1, 4⟩ ⟨0, 1, 5⟩ 1 1 6 7).2.1 ∧
      (interpToOddAxis ⟨0, 1, 4⟩).n = 5 ∧
      4 + 1 ≤ 7 ∧
      interpToOddAxis ⟨0, 1, 5⟩ = ⟨0, 1, 5⟩ := by
  refine ⟨?_, ?_, ?_, ?_, ?_⟩
  · exact (lct_odd_grid_invariant.1 ⟨0, 1, 4⟩ ⟨0, 1, 5⟩ 1 1 6 7).1
  · exact (lct_odd_grid_invariant.1 ⟨0, 1, 4⟩ ⟨0, 1, 5⟩ 1 1 6 7).2.2.1
  · exact (lct_odd_grid_invariant.2.1 ⟨0, 1, 4⟩ (by norm_num)).1
  · exact (lct_odd_grid_invariant.2.1 ⟨0, 1, 4⟩ (by norm_num)).2.2.1 7
      (by decide) (by norm_num)
  · exact lct_odd_grid_invariant.2.2 ⟨0, 1, 5⟩ (by norm_num)

/-! ## `Crystal._get_params` slice-count policy -/

/-- The claim that a length mismatch between configured `n0`/`n2` and the
slice count is fatal-unless-truncated-to-the-shorter fails: with `n0` and
`n2` both configured at 60 entries and `nslice` unconfigured, the merged
default `nslice = 50` disagrees with both lengths, yet `_get_params`
returns successfully, leaves `nslice = 50`, and `50` is not the shorter of
the two array lengths (60). -/
theorem crystal_get_params_counterexample :
    (crystalGetParams paramsSixty).map
        (fun p => (p.nslice, p.n0.length, p.n2.length)) =
      Except.ok (50, 60, 60) ∧ (50 : ℕ) ≠ min 60 60 := by
  constructor
  · rfl
  · decide

/-- C7 (amended): when `nslice` is explicitly configured (nonzero), an
explicitly configured `n0` or `n2` of mismatched length is a fatal
configuration error.  When `nslice` is not configured but `n0` or `n2` is,
no error is raised: the slice count becomes the minimum of the default
count (50) and the two merged array lengths — it is truncated to the
shorter array only when that is shorter than the default, while arrays
longer than the default are silently accepted with `nslice` left at 50. -/
theorem crystal_get_params_policy (o : CrystalParamsIn) :
    (truthyNat o.nslice = true → truthyList o.n0 = true →
        (o.n0.getD []).length ≠ o.nslice.getD 50 →
        crystalGetParams o = Except.error "n0 unequal length to nslice") ∧
      (truthyNat o.nslice = true → truthyList o.n2 = true →
        (o.n2.getD []).length ≠ o.nslice.getD 50 →
        (truthyList o.n0 = false ∨
          (o.n0.getD []).length = o.nslice.getD 50) →
        crystalGetParams o = Except.error "n2 unequal length to nslice") ∧
      (o.nslice = none →
        (truthyList o.n0 = true ∨ truthyList o.n2 = true) →
        crystalGetParams o = Except.ok
          { nslice := min 50 (min (getParamsBase o).n0.length
              (getParamsBase o).n2.length),
            n0 := (getParamsBase o).n0,
            n2 := (getParamsBase o).n2 }) := by
  obtain ⟨ns, a0, a2⟩ := o
  refine ⟨?_, ?_, ?_⟩
  · intro h1 h2 h3
    match ns, h1 with
    | some (m + 1), _ =>
      match a0, h2 with
      | some (x :: xs), _ =>
        have h3x : xs.length ≠ m := by
          simp only [Option.getD, List.length_cons] at h3; omega
        unfold crystalGetParams getParamsBase updateField
        simp [truthyNat, truthyList, h3x]
  · intro h1 h2 h3 h4
    match ns, h1 with
    | some (m + 1), _ =>
      match a2, h2 with
      | some (y :: ys), _ =>
        have h3y : ys.length ≠ m := by
          simp only [Option.getD, List.length_cons] at h3; omega
        unfold crystalGetParams getParamsBase updateField
        rcases h4 with h4 | h4
        · match a0, h4 with
          | none, _ =>
            by_cases hm : m = 49
            · subst hm; simp [truthyNat, truthyList, Option.getD, h3y]
            · simp [truthyNat, truthyList, Option.getD, h3y, hm]
          | some [], _ =>
            simp [truthyNat, truthyList, Option.getD, h3y]
        · match a0 with
          | none =>
            by_cases hm : m = 49
            · subst hm; simp [truthyNat, truthyList, Option.getD, h3y]
            · simp [truthyNat, truthyList, Option.getD, h3y, hm]
          | some l =>
            simp only [Option.getD] at h4
            simp [truthyNat, truthyList, Option.getD, h3y, h4]
  · intro h1 h2
    subst h1
    unfold crystalGetParams getParamsBase
    dsimp only
    have hfirst : ¬(truthyNat none = false ∧ truthyList a0 = false ∧
        truthyList a2 = false) := by
      rcases h2 with h2 | h2 <;> simp [h2]
    rw [if_neg hfirst]
    rw [if_neg (by simp [truthyNat])]
    rw [if_pos h2]
    simp only [Option.getD_none]
    by_cases hlt : (a0.getD (List.replicate 50 1.75)).length < 50 ∨
        (a2.getD (List.replicate 50 0.001)).length < 50
    · rw [if_pos hlt]
      simp only [Except.ok.injEq, CrystalParamsFinal.mk.injEq]
      exact ⟨by omega, trivial, trivial⟩
    · rw [if_neg hlt]
      simp only [Except.ok.injEq, CrystalParamsFinal.mk.injEq]
      exact ⟨by omega, trivial, trivial⟩

/-- Witness for `crystal_get_params_policy`: a mismatched configured `n0`
with `nslice = 3`; a mismatched configured `n2` with `n0` unconfigured and
`nslice = 3`; and a single 1-entry `n0` with `nslice` unconfigured, which
truncates the slice count to 1. -/
theorem crystal_get_params_policy_witness :
    crystalGetParams ⟨some 3, some [1, 1], none⟩ =
        Except.error "n0 unequal length to nslice" ∧
      crystalGetParams ⟨some 3, none, some [1, 1]⟩ =
        Except.error "n2 unequal length to nslice" ∧
      crystalGetParams ⟨none, some [1], none⟩ = Except.ok
        { nslice := min 50 (min
            (getParamsBase ⟨none, some [1], none⟩).n0.length
            (getParamsBase ⟨none, some [1], none⟩).n2.length),
          n0 := (getParamsBase ⟨none, some [1], none⟩).n0,
          n2 := (getParamsBase ⟨none, some [1], none⟩).n2 } :=
  ⟨(crystal_get_params_policy ⟨some 3, some [1, 1], none⟩).1 rfl rfl
      (by norm_num),
    (crystal_get_params_policy ⟨some 3, none, some [1, 1]⟩).2.1 rfl rfl
      (by norm_num) (Or.inl rfl),
    (crystal_get_params_policy ⟨none, some [1], none⟩).2.2 rfl
      (Or.inl rfl)⟩
